import Mathlib

/-!
Shallow embedding of `leds_service.py` (ReSpeaker LED service): the state enum,
the precomputed animation frame tables, the register write/read packet codec,
the playback loop's cancellation skeleton, and the dispatcher's device-absent
path.  Python dicts are modelled as insertion-ordered association lists with
update-in-place semantics; machine bytes are `Nat` with explicit `% 256`.
-/

/-- `LedsService.State`: the eight animation states, ordinal-stable. -/
inductive State
  | none
  | waking_up
  | standby
  | listening
  | loading
  | notify
  | intent_recognized
  | error
deriving DecidableEq

/-- A frame: Python dict from LED register address to register value,
modelled as an insertion-ordered association list with unique keys. -/
abbrev Frame := List (Nat × Nat)

/-- Python dict assignment `d[k] = v`: update in place if the key exists
(keeping its insertion position), otherwise append. -/
def dictInsert (d : Frame) (k v : Nat) : Frame :=
  if d.any (fun p => p.1 == k) then
    d.map (fun p => if p.1 == k then (k, v) else p)
  else
    d ++ [(k, v)]

/-- Build a Python dict from a sequence of key/value pairs (dict comprehension:
later duplicates overwrite, first insertion position wins). -/
def dictOfPairs (ps : List (Nat × Nat)) : Frame :=
  ps.foldl (fun d p => dictInsert d p.1 p.2) []

/-- Look a key up in a frame. -/
def frameLookup (f : Frame) (a : Nat) : Option Nat :=
  (f.find? (fun p => p.1 == a)).map Prod.snd

/-- `ReSpeakerAnimator.led_dict.values()`: the thirteen mapped addresses,
with the duplicate at 4 (`LED_2` and `LED_3`). -/
def led_dict_values : List Nat := [3, 4, 4, 5, 6, 7, 8, 9, 10, 11, 12, 13, 14]

/-- `{value: c for value in self.led_dict.values()}`: every LED register set
to the same value `c` (the duplicate 4 collapses). -/
def constFrame (c : Nat) : Frame :=
  dictOfPairs (led_dict_values.map (fun a => (a, c)))

/-- `self.animation_none`. -/
def animation_none : List Frame := [constFrame 0]

/-- `self.animation_waking_up`: `range(20) + list(reversed(range(15)))`, value `2*st`. -/
def animation_waking_up : List Frame :=
  ((List.range 20) ++ (List.range 15).reverse).map (fun st => constFrame (2 * st))

/-- `self.animation_standby`: `list(range(31)) + list(reversed(range(31)))`, value `st`. -/
def animation_standby : List Frame :=
  ((List.range 31) ++ (List.range 31).reverse).map (fun st => constFrame st)

/-- `value_green(i, j, N)` from the source, with Python's `%` on possibly
negative operands modelled by `Int.emod` (identical for positive modulus). -/
def value_green (i j N : Nat) : Nat :=
  if i = j then 0
  else if (i : Int) = ((j : Int) + 1) % (N : Int) then 0
  else if (i : Int) = ((j : Int) - 1) % (N : Int) then 0x004000
  else if (i : Int) = ((j : Int) + 2) % (N : Int) ∨ (i : Int) = ((j : Int) - 2) % (N : Int) then 0x007f00
  else 0x00fe00

/-- `self.animation_listening`: `leds = range(3, 15)`, `N = 12`, one frame per
`i`, LED `leds[j] = 3 + j` gets `value_green(i, j, N)`. -/
def animation_listening : List Frame :=
  (List.range 12).map (fun i => dictOfPairs ((List.range 12).map (fun j => (3 + j, value_green i j 12))))

/-- `self.animation_loading`: `list(range(15)) + list(reversed(range(15)))`, value `16*st`. -/
def animation_loading : List Frame :=
  ((List.range 15) ++ (List.range 15).reverse).map (fun st => constFrame (16 * st))

/-- `self.animation_notify`: two iterations appending an all-`0x0000ff` frame
then an all-`0x000000` frame. -/
def animation_notify : List Frame :=
  (List.range 2).foldl (fun acc _ => acc ++ [constFrame 0x0000ff, constFrame 0x000000]) []

/-- `self.animation_intent_recognized`: two iterations appending all-`0x00FF00`
then all-`0x000000`. -/
def animation_intent_recognized : List Frame :=
  (List.range 2).foldl (fun acc _ => acc ++ [constFrame 0x00FF00, constFrame 0x000000]) []

/-- `self.animation_error`: two iterations appending all-`0xff0000` then all-`0x000000`. -/
def animation_error : List Frame :=
  (List.range 2).foldl (fun acc _ => acc ++ [constFrame 0xff0000, constFrame 0x000000]) []

/-- The table `ReSpeakerAnimator.run` iterates for each state. -/
def build : State → List Frame
  | State.none => animation_none
  | State.waking_up => animation_waking_up
  | State.standby => animation_standby
  | State.listening => animation_listening
  | State.loading => animation_loading
  | State.notify => animation_notify
  | State.intent_recognized => animation_intent_recognized
  | State.error => animation_error

/-- The per-frame `time.sleep` used by `ReSpeakerAnimator.run` for each state,
in milliseconds. -/
def run_delay_ms : State → Nat
  | State.none => 500
  | State.waking_up => 20
  | State.standby => 50
  | State.listening => 10
  | State.loading => 10
  | State.notify => 100
  | State.intent_recognized => 100
  | State.error => 200

/-- `struct.pack('<H', v)`: two little-endian bytes. -/
def struct_pack_H (v : Nat) : List Nat := [v % 256, (v / 256) % 256]

/-- `struct.pack('<I', v)`: four little-endian bytes. -/
def struct_pack_I (v : Nat) : List Nat :=
  [v % 256, (v / 256) % 256, (v / 256 / 256) % 256, (v / 256 / 256 / 256) % 256]

/-- The value-serialization part of `ReSpeakerAnimator.write` (`struct.pack`
dispatch followed by `to_bytearray`).  `struct.pack('<I', v)` raises
`struct.error` for `v ≥ 2^32`, modelled as `none`; below `0x100` the integer
reaches `to_bytearray` unchanged and becomes `bytearray([data & 0xFF])`. -/
def write_value_bytes (data : Nat) : Option (List Nat) :=
  if data > 0xFFFF then
    if data < 4294967296 then some (struct_pack_I data) else Option.none
  else if data > 0xFF then some (struct_pack_H data)
  else some [data % 256]

/-- The packet built by `ReSpeakerAnimator.write`:
`[address & 0xFF, (address >> 8) & 0x7F, length & 0xFF, (length >> 8) & 0xFF] + data`. -/
def encodeWrite (address data : Nat) : Option (List Nat) :=
  (write_value_bytes data).map (fun vb =>
    [address % 256, (address / 256) % 128, vb.length % 256, (vb.length / 256) % 256] ++ vb)

/-- The frame-keep test of `ReSpeakerAnimator.read`:
`int(data[0]) != 0xFF and int(data[1]) != 0xFF`. -/
def keepFrame (d : List Nat) : Bool :=
  (d.getD 0 0 != 0xFF) && (d.getD 1 0 != 0xFF)

/-- The `for _ in range(6)` retry loop of `ReSpeakerAnimator.read`: `k` is the
index of the next response frame, `n` the attempts left; a kept frame returns
`data[4:(4 + length)]`, exhaustion returns Python's implicit `None`. -/
def readAttempts (reads : Nat → List Nat) (length k : Nat) : Nat → Option (List Nat)
  | 0 => Option.none
  | n + 1 =>
    if keepFrame (reads k) then some (((reads k).drop 4).take length)
    else readAttempts reads length (k + 1) n

/-- `ReSpeakerAnimator.read`'s response decoding, over the stream of response
frames returned by successive `hid.read()` calls. -/
def decodeReadResponse (reads : Nat → List Nat) (length : Nat) : Option (List Nat) :=
  readAttempts reads length 0 6

/-- The claim's reading of the sentinel rule: a frame is skipped iff its first
two bytes are BOTH `0xFF` (compare with `keepFrame`, which also skips frames
where only one of them is `0xFF`). -/
def decodeReadResponseClaim (reads : Nat → List Nat) (length k : Nat) : Nat → Option (List Nat)
  | 0 => Option.none
  | n + 1 =>
    if (reads k).getD 0 0 == 0xFF && (reads k).getD 1 0 == 0xFF then
      decodeReadResponseClaim reads length (k + 1) n
    else some (((reads k).drop 4).take length)

/-- Result of calling a Python method: normal return or an `AttributeError`. -/
inductive PyResult (α : Type)
  | ok (a : α)
  | attributeError
deriving DecidableEq

/-- `LedsService.__init__`: the `animator` attribute is assigned only when
`HID.find()` returns a device; in the else branch the method just prints, so
the attribute is never created (`Option.none` = attribute missing). -/
def ledsService_init (deviceFound : Bool) : Option Unit :=
  if deviceFound then some () else Option.none

/-- `LedsService.start_animation`: evaluating `self.animator` raises
`AttributeError` when the attribute was never assigned; otherwise the animator
object is truthy, the guard falls through, and `run` is reached (`ok true`). -/
def start_animation (animator : Option Unit) (_animation_id : State) : PyResult Bool :=
  match animator with
  | Option.none => PyResult.attributeError
  | some _ => PyResult.ok true

/-- One observable event of `ReSpeakerAnimator.run`'s per-state loop: the
token comparison `animation.id != id`, the write of one frame's registers, or
the `time.sleep` of the state's delay. -/
inductive Ev
  | checkTok (ok : Bool)
  | writeFrame (f : Frame)
  | sleep (ms : Nat)
deriving DecidableEq

/-- The event trace of `run`'s loop `for item in table: if id mismatch: break;
write item; sleep`.  Events occupy consecutive trace positions starting at
`pos`; the captured token stops matching the current-token cell from absolute
position `p` onward (the supersession point), so the comparison at position
`q` succeeds iff `q < p`, and a failed comparison breaks the loop. -/
def runTrace (ms p : Nat) : Nat → List Frame → List Ev
  | _, [] => []
  | pos, f :: rest =>
    if pos < p then
      Ev.checkTok true :: Ev.writeFrame f :: Ev.sleep ms :: runTrace ms p (pos + 3) rest
    else
      [Ev.checkTok false]

/-- The frames written in a trace, in order. -/
def writeEvents : List Ev → List Frame
  | [] => []
  | Ev.writeFrame f :: rest => f :: writeEvents rest
  | _ :: rest => writeEvents rest

/-- Number of frame writes occurring at or after absolute position `p`, for a
trace whose first event sits at position `pos`. -/
def countLateWrites (p : Nat) : Nat → List Ev → Nat
  | _, [] => 0
  | pos, e :: rest =>
    (match e with
     | Ev.writeFrame _ => if p ≤ pos then 1 else 0
     | _ => 0) + countLateWrites p (pos + 1) rest

/-- Modelled from the spec: the `singleton` module backing `Animation` is not
under `src/`.  Per the spec, all `Animation` constructions share one
process-wide current-token cell and a token is current iff it equals the
cell's value at comparison time. -/
def isCurrent (tok : Nat) (cell : Option Nat) : Bool :=
  match cell with
  | some c => tok == c
  | Option.none => false

/-- Modelled from the spec: each `get_animation` call constructs an
`Animation` with a freshly minted identifier, which replaces the value held in
the process-wide current-token cell. -/
def mint_token (_cell : Option Nat) (newId : Nat) : Option Nat := some newId

/-- The current-token cell after a sequence of `get_animation` calls minting
the given identifiers in order. -/
def runRequests (cell : Option Nat) (ids : List Nat) : Option Nat :=
  ids.foldl mint_token cell

/-- Minimal little-endian serialization at a given width (spec's RegisterValue rule). -/
def leBytes : Nat → Nat → List Nat
  | 0, _ => []
  | w + 1, v => v % 256 :: leBytes w (v / 256)

/-- The spec's width rule: `≤ 0xFF → 1`, `≤ 0xFFFF → 2`, else `4` bytes. -/
def minWidth (v : Nat) : Nat :=
  if v ≤ 0xFF then 1 else if v ≤ 0xFFFF then 2 else 4

/-- The response-frame stream of the C1 counterexample: frame 0 has first two
bytes `0xFF, 0x00`, frame 1 has first two bytes `0x01, 0x01`. -/
def c1_reads : Nat → List Nat :=
  fun k => if k = 0 then [0xFF, 0x00, 0, 0, 42] else [1, 1, 0, 0, 7]

/-- An all-sentinel response stream for the C1 witness. -/
def c1_all_sentinel : Nat → List Nat := fun _ => [0xFF, 0xFF, 0, 0, 9]

theorem constFrame_eq (c : Nat) :
    constFrame c =
      [(3, c), (4, c), (5, c), (6, c), (7, c), (8, c), (9, c), (10, c), (11, c), (12, c), (13, c), (14, c)] := by
  simp [constFrame, led_dict_values, dictOfPairs, dictInsert]

theorem frameLookup_constFrame (c a : Nat) (h3 : 3 ≤ a) (h14 : a ≤ 14) :
    frameLookup (constFrame c) a = some c := by
  interval_cases a <;> simp [frameLookup, constFrame_eq]

theorem readAttempts_all_skipped (reads : Nat → List Nat) (length : Nat) :
    ∀ n k, (∀ j, k ≤ j → j < k + n → keepFrame (reads j) = false) →
      readAttempts reads length k n = Option.none := by
  intro n
  induction n with
  | zero => intro k _; rfl
  | succ m ih =>
    intro k h
    have h0 : keepFrame (reads k) = false := h k le_rfl (by omega)
    unfold readAttempts
    rw [if_neg (by simp [h0])]
    exact ih (k + 1) (fun j hj1 hj2 => h j (by omega) (by omega))

theorem readAttempts_first_kept (reads : Nat → List Nat) (length : Nat) :
    ∀ n k m, m < n → keepFrame (reads (k + m)) = true →
      (∀ j, j < m → keepFrame (reads (k + j)) = false) →
      readAttempts reads length k n = some (((reads (k + m)).drop 4).take length) := by
  intro n
  induction n with
  | zero => intro k m hm; omega
  | succ p ih =>
    intro k m hm hk hprev
    cases m with
    | zero =>
      unfold readAttempts
      rw [if_pos (by simpa using hk)]
      simp
    | succ m' =>
      have h0 : keepFrame (reads k) = false := by simpa using hprev 0 (by omega)
      unfold readAttempts
      rw [if_neg (by simp [h0])]
      have he : k + (m' + 1) = (k + 1) + m' := by omega
      rw [he] at hk ⊢
      exact ih (k + 1) m' (by omega) hk (fun j hj => by
        have := hprev (j + 1) (by omega)
        have he2 : k + (j + 1) = (k + 1) + j := by omega
        rwa [he2] at this)

/-- C1 (amended): `decodeReadResponse` skips a response frame iff its first
byte is `0xFF` or its second byte is `0xFF` (not only when both are); it
returns the bytes at offset `4 .. 4+length` of the first frame with neither of
its first two bytes `0xFF`, and yields none (not an error) if all of the at
most 6 attempted frames are skipped. -/
theorem c1_read_skips_either_ff (reads : Nat → List Nat) (length : Nat) :
    ((∀ k, k < 6 → keepFrame (reads k) = false) → decodeReadResponse reads length = Option.none)
    ∧ (∀ k, k < 6 → keepFrame (reads k) = true → (∀ j, j < k → keepFrame (reads j) = false) →
        decodeReadResponse reads length = some (((reads k).drop 4).take length))
    ∧ (∀ d, keepFrame d = false ↔ (d.getD 0 0 = 0xFF ∨ d.getD 1 0 = 0xFF)) := by
  refine ⟨?_, ?_, ?_⟩
  · intro h
    exact readAttempts_all_skipped reads length 6 0 (fun j _ hj2 => h j (by omega))
  · intro k hk hke hprev
    have := readAttempts_first_kept reads length 6 0 k hk (by simpa using hke)
      (fun j hj => by simpa using hprev j hj)
    simpa [decodeReadResponse] using this
  · intro d
    simp [keepFrame]
    tauto

/-- C1 counterexample: frame 0's first two bytes are not both `0xFF`, so the
claim says its payload `[42]` is returned; the code skips it (one byte being
`0xFF` suffices) and returns frame 1's payload `[7]`. -/
theorem c1_counterexample :
    decodeReadResponse c1_reads 1 = some [7]
    ∧ decodeReadResponseClaim c1_reads 1 0 6 = some [42]
    ∧ ¬ (decodeReadResponse c1_reads 1 = decodeReadResponseClaim c1_reads 1 0 6) := by
  refine ⟨rfl, rfl, ?_⟩
  decide

theorem c1_witness : decodeReadResponse c1_all_sentinel 2 = Option.none :=
  (c1_read_skips_either_ff c1_all_sentinel 2).1 (fun _ _ => rfl)

/-- C2 counterexample: the standby table concatenates `range(31)` with its
reversal, so it has 62 frames, not 61. -/
theorem c2_counterexample : ¬ ((build State.standby).length = 61) := by decide

theorem standby_getD (k : Nat) (hk : k < 62) :
    (build State.standby).getD k [] = constFrame (if k ≤ 30 then k else 61 - k) := by
  interval_cases k <;> rfl

/-- C2 (amended): `AnimationLibrary.build(standby)` produces exactly 62 frames,
whose per-LED values are `s` for `s` running `0..30` ascending then `30..0`
descending (the peak value 30 occupies two consecutive frames), with a fixed
per-frame delay of 50 ms. -/
theorem c2_standby_frames (k a : Nat) (hk : k < 62) (h3 : 3 ≤ a) (h14 : a ≤ 14) :
    (build State.standby).length = 62 ∧ run_delay_ms State.standby = 50 ∧
    frameLookup ((build State.standby).getD k []) a = some (if k ≤ 30 then k else 61 - k) := by
  refine ⟨by decide, rfl, ?_⟩
  rw [standby_getD k hk]
  exact frameLookup_constFrame _ a h3 h14

theorem c2_witness :
    (build State.standby).length = 62 ∧ run_delay_ms State.standby = 50 ∧
    frameLookup ((build State.standby).getD 40 []) 5 = some (if 40 ≤ 30 then 40 else 61 - 40) :=
  c2_standby_frames 40 5 (by decide) (by decide) (by decide)

/-- C3 counterexample: the loading table concatenates `range(15)` with its
reversal, so it has 30 frames, not 29. -/
theorem c3_counterexample : ¬ ((build State.loading).length = 29) := by decide

theorem loading_getD (k : Nat) (hk : k < 30) :
    (build State.loading).getD k [] = constFrame (16 * (if k ≤ 14 then k else 29 - k)) := by
  interval_cases k <;> rfl

/-- C3 (amended): `AnimationLibrary.build(loading)` produces exactly 30 frames,
whose per-LED values are `16·s` for `s` running `0..14` ascending then `14..0`
descending (the peak value 14 occupies two consecutive frames), with a fixed
per-frame delay of 10 ms. -/
theorem c3_loading_frames (k a : Nat) (hk : k < 30) (h3 : 3 ≤ a) (h14 : a ≤ 14) :
    (build State.loading).length = 30 ∧ run_delay_ms State.loading = 10 ∧
    frameLookup ((build State.loading).getD k []) a = some (16 * (if k ≤ 14 then k else 29 - k)) := by
  refine ⟨by decide, rfl, ?_⟩
  rw [loading_getD k hk]
  exact frameLookup_constFrame _ a h3 h14

theorem c3_witness :
    (build State.loading).length = 30 ∧ run_delay_ms State.loading = 10 ∧
    frameLookup ((build State.loading).getD 20 []) 14 = some (16 * (if 20 ≤ 14 then 20 else 29 - 20)) :=
  c3_loading_frames 20 14 (by decide) (by decide) (by decide)

theorem error_getD (k : Nat) (hk : k < 4) :
    (build State.error).getD k [] = constFrame (if k % 2 = 0 then 0xff0000 else 0x000000) := by
  interval_cases k <;> rfl

/-- C8: the error animation is exactly 4 frames (2 on/off cycles) alternating
value `0xFF0000` and value `0x000000` for every LED, with a 200 ms per-frame
delay in the playback loop. -/
theorem c8_error_animation (k a : Nat) (hk : k < 4) (h3 : 3 ≤ a) (h14 : a ≤ 14) :
    (build State.error).length = 4 ∧ run_delay_ms State.error = 200 ∧
    frameLookup ((build State.error).getD k []) a = some (if k % 2 = 0 then 0xff0000 else 0x000000) := by
  refine ⟨by decide, rfl, ?_⟩
  rw [error_getD k hk]
  exact frameLookup_constFrame _ a h3 h14

theorem c8_witness :
    (build State.error).length = 4 ∧ run_delay_ms State.error = 200 ∧
    frameLookup ((build State.error).getD 1 []) 14 = some (if 1 % 2 = 0 then 0xff0000 else 0x000000) :=
  c8_error_animation 1 14 (by decide) (by decide) (by decide)

/-- C9: the listening animation has one frame per LED position `i` in `0..11`
(12 LEDs at addresses 3..14); in frame `i` the LED at index `j` has value 0 if
`i = j` or `i = (j+1) % 12`, value `0x004000` if `i = (j-1) % 12`, value
`0x007f00` if `i` is at modular distance 2 from `j`, and value `0x00fe00`
otherwise (with `(j-1) % 12` and `(j-2) % 12` written as `(j+11) % 12` and
`(j+10) % 12` over `Nat`), with a 10 ms per-frame delay. -/
theorem c9_listening_frames (i j : Nat) (hi : i < 12) (hj : j < 12) :
    (build State.listening).length = 12 ∧ run_delay_ms State.listening = 10 ∧
    frameLookup ((build State.listening).getD i []) (3 + j) =
      some (if i = j ∨ i = (j + 1) % 12 then 0
            else if i = (j + 11) % 12 then 0x004000
            else if i = (j + 2) % 12 ∨ i = (j + 10) % 12 then 0x007f00
            else 0x00fe00) := by
  refine ⟨by decide, rfl, ?_⟩
  interval_cases i <;> interval_cases j <;> decide

theorem c9_witness :
    (build State.listening).length = 12 ∧ run_delay_ms State.listening = 10 ∧
    frameLookup ((build State.listening).getD 0 []) (3 + 5) =
      some (if 0 = 5 ∨ 0 = (5 + 1) % 12 then 0
            else if 0 = (5 + 11) % 12 then 0x004000
            else if 0 = (5 + 2) % 12 ∨ 0 = (5 + 10) % 12 then 0x007f00
            else 0x00fe00) :=
  c9_listening_frames 0 5 (by decide) (by decide)

/-- C10: every frame of every state's table maps exactly the LED register
addresses 3 through 14 inclusive, once each in insertion order (the duplicate
mapping at address 4 collapses to a single entry), and no other addresses. -/
theorem c10_frame_addresses (st : State) (f : Frame) (hf : f ∈ build st) :
    f.map Prod.fst = [3, 4, 5, 6, 7, 8, 9, 10, 11, 12, 13, 14] := by
  have h : ∀ g ∈ build st, (g.map Prod.fst == [3, 4, 5, 6, 7, 8, 9, 10, 11, 12, 13, 14]) = true := by
    rw [← List.all_eq_true]
    cases st <;> decide
  simpa using h f hf

theorem c10_witness : (constFrame 0).map Prod.fst = [3, 4, 5, 6, 7, 8, 9, 10, 11, 12, 13, 14] :=
  c10_frame_addresses State.none (constFrame 0) (by decide)

/-- C5 is a code bug, exhibited here: when no USB device is found,
`LedsService.__init__` never assigns the `animator` attribute, so a subsequent
`start_animation` call raises `AttributeError` when it evaluates
`self.animator`, instead of returning silently as a no-op. -/
theorem c5_device_absent_attribute_error :
    ledsService_init false = Option.none
    ∧ start_animation (ledsService_init false) State.error = PyResult.attributeError :=
  ⟨rfl, rfl⟩

theorem countLateWrites_of_superseded (ms p : Nat) (frames : List Frame) (pos : Nat) (h : p ≤ pos) :
    countLateWrites p pos (runTrace ms p pos frames) = 0 := by
  cases frames with
  | nil => rfl
  | cons f rest =>
    unfold runTrace
    rw [if_neg (by omega)]
    rfl

theorem countLateWrites_le_one (ms p : Nat) (frames : List Frame) :
    ∀ pos, countLateWrites p pos (runTrace ms p pos frames) ≤ 1 := by
  induction frames with
  | nil => intro pos; simp [runTrace, countLateWrites]
  | cons f rest ih =>
    intro pos
    by_cases hp : pos < p
    · unfold runTrace
      rw [if_pos hp]
      show (0 + ((if p ≤ pos + 1 then 1 else 0) +
        (0 + countLateWrites p (pos + 3) (runTrace ms p (pos + 3) rest)))) ≤ 1
      by_cases hq : p ≤ pos + 1
      · rw [countLateWrites_of_superseded ms p rest (pos + 3) (by omega)]
        simp [hq]
      · have := ih (pos + 3)
        simp [hq]
        omega
    · unfold runTrace
      rw [if_neg hp]
      simp [countLateWrites]

theorem writeEvents_runTrace (ms p : Nat) (frames : List Frame) :
    ∀ pos, writeEvents (runTrace ms p pos frames) = frames.take ((p - pos + 2) / 3) := by
  induction frames with
  | nil => intro pos; simp [runTrace, writeEvents]
  | cons f rest ih =>
    intro pos
    by_cases hp : pos < p
    · unfold runTrace
      rw [if_pos hp]
      show f :: writeEvents (runTrace ms p (pos + 3) rest) = (f :: rest).take ((p - pos + 2) / 3)
      rw [ih (pos + 3)]
      have he : (p - pos + 2) / 3 = (p - (pos + 3) + 2) / 3 + 1 := by omega
      rw [he, List.take_succ_cons]
    · unfold runTrace
      rw [if_neg hp]
      have he : (p - pos + 2) / 3 = 0 := by omega
      simp [writeEvents, he]

/-- C6: in the playback loop's event trace (token comparison, frame write,
sleep — three positions per frame), with the captured token superseded from
absolute position `p` onward, at most one frame write occurs at or after `p`,
and the frames written are exactly the initial segment of the table whose
token comparisons (at positions `0, 3, 6, ...`) still succeeded — so no
further frames of the superseded animation are written beyond that one. -/
theorem c6_cancellation (st : State) (p : Nat) :
    countLateWrites p 0 (runTrace (run_delay_ms st) p 0 (build st)) ≤ 1
    ∧ writeEvents (runTrace (run_delay_ms st) p 0 (build st)) = (build st).take ((p + 2) / 3) := by
  refine ⟨countLateWrites_le_one (run_delay_ms st) p (build st) 0, ?_⟩
  have h := writeEvents_runTrace (run_delay_ms st) p (build st) 0
  simpa using h

/-- C7: a token is current iff it equals the value in the process-wide
current-token cell, so at most one token value is current at any instant, and
each `get_animation` call replaces the cell with the newly minted identifier,
demoting every previously issued distinct token. -/
theorem c7_token_uniqueness (cell : Option Nat) (ids : List Nat) (newId : Nat) :
    runRequests cell (ids ++ [newId]) = some newId
    ∧ (∀ t1 t2, isCurrent t1 (runRequests cell (ids ++ [newId])) = true →
        isCurrent t2 (runRequests cell (ids ++ [newId])) = true → t1 = t2)
    ∧ (∀ old, old ≠ newId → isCurrent old (runRequests cell (ids ++ [newId])) = false) := by
  have hcell : runRequests cell (ids ++ [newId]) = some newId := by
    simp [runRequests, List.foldl_append, mint_token]
  refine ⟨hcell, ?_, ?_⟩
  · intro t1 t2 h1 h2
    rw [hcell] at h1 h2
    simp [isCurrent] at h1 h2
    rw [h1, h2]
  · intro old hne
    rw [hcell]
    simp [isCurrent, hne]

theorem c7_witness : isCurrent 3 (runRequests Option.none ([4] ++ [5])) = false :=
  (c7_token_uniqueness Option.none [4] 5).2.2 3 (by decide)

/-- C4: for every 15-bit address and every 4-byte-representable value,
`encodeWrite` builds `[address & 0xFF, (address >> 8) & 0x7F, length & 0xFF,
(length >> 8) & 0xFF]` followed by the value serialized little-endian at the
minimal width of the RegisterValue rule, with the three concrete packets the
spec lists. -/
theorem c4_encodeWrite_packet (address value : Nat) (_ha : address < 32768) (hv : value < 4294967296) :
    encodeWrite address value =
      some ([address % 256, (address / 256) % 128,
             minWidth value % 256, (minWidth value / 256) % 256] ++ leBytes (minWidth value) value)
    ∧ encodeWrite 3 0 = some [3, 0, 1, 0, 0]
    ∧ encodeWrite 3 0x1234 = some [3, 0, 2, 0, 0x34, 0x12]
    ∧ encodeWrite 3 0x12345678 = some [3, 0, 4, 0, 0x78, 0x56, 0x34, 0x12] := by
  refine ⟨?_, by decide, by decide, by decide⟩
  unfold encodeWrite write_value_bytes minWidth
  split_ifs with h1 h2 h3 h4 h5 <;>
    first
    | omega
    | simp [struct_pack_I, struct_pack_H, leBytes]

theorem c4_witness : encodeWrite 3 4660 = some [3, 0, 2, 0, 52, 18] :=
  (c4_encodeWrite_packet 3 4660 (by decide) (by decide)).2.2.1
